import Mathlib

/-!
# mesheryctl `mesh validate`: adapter resolution and the event-stream wait

A shallow embedding of `mesheryctl/internal/cli/root/mesh/validate.go`.

* Go strings are embedded as Lean `String`s; `strings.Split` and
  `strings.Contains` are defined on the character lists.
* The package-level variables `adapterURL` and `meshName` are the two fields
  of `CmdState`, threaded through the resolution loop of `validateCmd.PreRunE`.
* `waitForValidateResponse` is embedded with its collaborators
  (`utils.NewRequest`, `client.Do`, `utils.ConvertRespToSSE`) as fields of an
  environment; the goroutine, the unbuffered channel `eventChan` and the
  `select` are a small-step machine on `Config`.
* Wall-clock time enters through the items of the event channel: each carries
  the time at which the goroutine is through with it, counted from the arming
  of the 1200-second timer, and the timer branch of the `select` runs before
  any item that comes later than that.
-/

namespace Mesh

/-! ## Strings -/

/-- First segment and remaining segments of a character list cut at every
occurrence of `sep`. -/
def splitChars (sep : Char) : List Char → List Char × List (List Char)
  | [] => ([], [])
  | c :: cs =>
    if c = sep then ([], (splitChars sep cs).1 :: (splitChars sep cs).2)
    else (c :: (splitChars sep cs).1, (splitChars sep cs).2)

/-- Go `strings.Split(s, sep)` for a one-character separator, the way the
source calls it (`strings.Split(adapter.Location, ":")`): the substrings of
`s` between the separators, in order. -/
def Split (s : String) (sep : Char) : List String :=
  (String.mk (splitChars sep s.data).1) :: (splitChars sep s.data).2.map String.mk

/-- Substring test on character lists: `substr` starts at some position of `s`. -/
def containsChars : List Char → List Char → Bool
  | [], substr => substr.isEmpty
  | c :: cs, substr => substr.isPrefixOf (c :: cs) || containsChars cs substr

/-- Go `strings.Contains(s, substr)`. -/
def Contains (s substr : String) : Bool :=
  containsChars s.data substr.data

/-! ## Adapter resolution (`validateCmd.PreRunE`, the loop over `prefs.MeshAdapters`) -/

/-- An entry of `prefs.MeshAdapters`; only `Location` is read by the loop. -/
structure Adapter where
  Location : String
  Name : String
  deriving DecidableEq, Repr

/-- The package-level variables the loop reads and writes. -/
structure CmdState where
  adapterURL : String
  meshName : String
  deriving DecidableEq, Repr

/-- One iteration of the loop body.  `adapterName[0]` is the indexing
`Split(...)[0]`; `none` stands for Go's index-out-of-range fault. -/
def resolveStep (st : CmdState) (adapter : Adapter) : Option CmdState :=
  let adapterName := Split adapter.Location ':'
  match adapterName[0]? with
  | none => none
  | some name =>
    if name = st.adapterURL then
      some { adapterURL := adapter.Location, meshName := adapter.Location }
    else
      some st

/-- The loop `for _, adapter := range prefs.MeshAdapters { ... }`. -/
def resolveAdapter : List Adapter → CmdState → Option CmdState
  | [], st => some st
  | adapter :: rest, st =>
    match resolveStep st adapter with
    | none => none
    | some st1 => resolveAdapter rest st1

/-! ## The event-stream wait (`waitForValidateResponse`) -/

/-- A Go `error` value produced by a collaborator, identified by its message. -/
abbrev Cause := String

/-- The errors `waitForValidateResponse` returns (declared in the package's
`error.go`); the wrapping ones carry their cause. -/
inductive Error where
  | ErrCreatingDeployResponseRequest (err : Cause)
  | ErrCreatingValidateRequest (err : Cause)
  | ErrCreatingValidateResponseStream (err : Cause)
  | ErrTimeoutWaitingForValidateResponse
  | ErrSMIConformanceTestsFailed
  deriving DecidableEq, Repr

/-- The decoded payload `i.Data` of a server-sent event: the two fields the
loop reads. -/
structure Event where
  Summary : String
  Details : String
  deriving DecidableEq, Repr

/-- Go `time.Second`, in the nanoseconds of `time.Duration`. -/
def Second : Nat := 1000000000

/-- The duration given to `time.NewTimer`: `time.Duration(1200) * time.Second`. -/
def timeout : Nat := 1200 * Second

/-- An item `i` of the channel `event`, with the wall-clock time at which the
goroutine is through the tests of the loop body for it (at its send, or back
at the loop head), in nanoseconds after the timer was armed. The channel
delivers the items in list order. -/
structure Arrival where
  time : Nat
  Data : Event
  deriving DecidableEq, Repr

/-- The goroutine started by `go func() { for i := range event { ... } }()`. -/
inductive Producer where
  /-- at the head of `for i := range event`, with the items still to come -/
  | ranging (rest : List Arrival)
  /-- blocked in `eventChan <- v`; `rest` are the items after the current one -/
  | sending (v : String) (rest : List Arrival)
  /-- the stream was closed and the range loop ended -/
  | exited
  deriving DecidableEq, Repr

/-- The caller, at or after the `select`. -/
inductive Consumer where
  /-- blocked in `select { case <-timer.C: ... case event := <-eventChan: ... }` -/
  | selecting
  /-- `waitForValidateResponse` has returned `"", err` -/
  | returned (err : Option Error)
  deriving DecidableEq, Repr

/-- A configuration of the two tasks around the unbuffered channel `eventChan`.
`attempted` records every send the goroutine has begun (`eventChan <- v`
reached), `delivered` every value the caller has received; both newest first. -/
structure Config where
  producer : Producer
  consumer : Consumer
  attempted : List String
  delivered : List String
  deriving DecidableEq, Repr

/-- The configuration right after `go func() {...}()`, before the `select`. -/
def Config.init (event : List Arrival) : Config :=
  { producer := .ranging event, consumer := .selecting, attempted := [], delivered := [] }

/-- Whether `timer.C` is ready before the goroutine is through item `i`: the
item comes after the 1200 seconds, or at that very instant and the `select`
takes the timer (`timerOnTie`; Go picks among ready cases at random). -/
def timerFirst (timerOnTie : Bool) (i : Arrival) : Bool :=
  decide (timeout < i.time) || (decide (i.time = timeout) && timerOnTie)

/-- One transition of the two tasks; `none` when nothing can move.

* `ranging (i :: rest)` while the caller is in `select` and the timer is
  ready before `i`: the `case <-timer.C` branch runs and the caller returns the
  time-out error; the goroutine has not moved.
* `ranging (i :: rest)` otherwise: the goroutine takes `i` and runs the
  `if / else if` of the loop body, reaching a send or going round the loop.
* `ranging []`: the stream is closed, the range loop ends.
* `sending v rest` with the caller in `select`: the rendezvous on the
  unbuffered channel; the caller runs `if event != "successful"` and returns,
  the goroutine logs and goes round the loop.
* `sending v rest` with the caller gone: the send blocks for ever.
* `exited` with the caller in `select`: only `timer.C` can become ready. -/
def step (query : String) (timerOnTie : Bool) (c : Config) : Option Config :=
  match c.producer with
  | .ranging [] => some { c with producer := .exited }
  | .ranging (i :: rest) =>
    if c.consumer = .selecting ∧ timerFirst timerOnTie i = true then
      some { c with consumer := .returned (some .ErrTimeoutWaitingForValidateResponse) }
    else if Contains i.Data.Summary query then
      some { c with producer := .sending "successful" rest,
                    attempted := "successful" :: c.attempted }
    else if Contains i.Data.Details "error" then
      some { c with producer := .sending "error" rest,
                    attempted := "error" :: c.attempted }
    else
      some { c with producer := .ranging rest }
  | .sending v rest =>
    match c.consumer with
    | .selecting =>
      some { c with producer := .ranging rest,
                    consumer := .returned
                      (if v ≠ "successful" then some .ErrSMIConformanceTestsFailed else none),
                    delivered := v :: c.delivered }
    | .returned _ => none
  | .exited =>
    match c.consumer with
    | .selecting =>
      some { c with consumer := .returned (some .ErrTimeoutWaitingForValidateResponse) }
    | .returned _ => none

/-- Run the machine for at most `fuel` transitions. -/
def run (query : String) (timerOnTie : Bool) : Nat → Config → Config
  | 0, c => c
  | fuel + 1, c =>
    match step query timerOnTie c with
    | none => c
    | some c1 => run query timerOnTie fuel c1

/-- The `*http.Request` built by `utils.NewRequest`; `Header` is its header map
as an association list. -/
structure Request where
  method : String
  path : String
  Header : List (String × String)
  deriving DecidableEq, Repr

/-- The collaborators of `waitForValidateResponse`, which live outside this file.
`NewRequest` returns the Go pair `(req, err)`: `req` may be `nil` (`none`) and
`err` may be non-nil, independently. `Response` is the `*http.Response`. -/
structure Env (Response : Type) where
  /-- the value of mctlCfg.GetBaseMesheryURL() -/
  baseURL : String
  /-- the call utils.NewRequest(method, path, nil) -/
  NewRequest : String → String → Option Request × Option Cause
  /-- the call client.Do(req) -/
  Do : Request → Except Cause Response
  /-- the call utils.ConvertRespToSSE(res): the items the channel delivers -/
  ConvertRespToSSE : Response → Except Cause (List Arrival)
  /-- what the select takes when both of its cases are ready at once -/
  timerOnTie : Bool

/-- Calls to collaborators, in the order they were made. -/
inductive Effect where
  | clientDo (req : Request)
  | openStream
  deriving DecidableEq, Repr

/-- How a call of `waitForValidateResponse` ends. -/
inductive Outcome where
  /-- the statement return value, err -/
  | returned (value : String) (err : Option Error)
  /-- a run-time panic: nil pointer dereference -/
  | nilDereference
  /-- the caller is still blocked in the select -/
  | blocked
  deriving DecidableEq, Repr

/-- Lines 126-151: arm the timer, start the goroutine, `select`.  The machine
gets two transitions for every item (take it, hand its signal over) and two
more for the end of the stream and the timer. -/
def awaitSignal (query : String) (timerOnTie : Bool) (event : List Arrival) : Outcome :=
  match (run query timerOnTie (2 * event.length + 2) (Config.init event)).consumer with
  | .selecting => .blocked
  | .returned err => .returned "" err

/-- The function `waitForValidateResponse(mctlCfg, query)`, with the list of
collaborator calls it made. -/
def waitForValidateResponse {Response : Type} (env : Env Response) (query : String) :
    Outcome × List Effect :=
  let path := env.baseURL ++ "/api/events?client=cli_validate"
  let method := "GET"
  match env.NewRequest method path with
  | (none, _) =>
    -- req.Header.Add(...) on a nil req, before err is looked at
    (.nilDereference, [])
  | (some req, err) =>
    let req := { req with Header := req.Header ++ [("Accept", "text/event-stream")] }
    match err with
    | some err => (.returned "" (some (.ErrCreatingDeployResponseRequest err)), [])
    | none =>
      match env.Do req with
      | .error err => (.returned "" (some (.ErrCreatingValidateRequest err)), [.clientDo req])
      | .ok res =>
        match env.ConvertRespToSSE res with
        | .error err =>
          (.returned "" (some (.ErrCreatingValidateResponseStream err)),
            [.clientDo req, .openStream])
        | .ok event =>
          (awaitSignal query env.timerOnTie event, [.clientDo req, .openStream])

/-- The three collaborator calls succeed and the channel returned by
`utils.ConvertRespToSSE` delivers `event`. -/
def Env.opens {Response : Type} (env : Env Response) (event : List Arrival) : Prop :=
  ∃ req res,
    env.NewRequest "GET" (env.baseURL ++ "/api/events?client=cli_validate") = (some req, none) ∧
    env.Do { req with Header := req.Header ++ [("Accept", "text/event-stream")] } = .ok res ∧
    env.ConvertRespToSSE res = .ok event

/-- A simulated server: the request is built, the call succeeds and the stream
delivers `event`. -/
def simulated (timerOnTie : Bool) (event : List Arrival) : Env Unit :=
  { baseURL := "http://localhost:9081"
    NewRequest := fun method path => (some { method := method, path := path, Header := [] }, none)
    Do := fun _ => .ok ()
    ConvertRespToSSE := fun _ => .ok event
    timerOnTie := timerOnTie }

/-- No send has been begun and none can be: the items left match neither test. -/
def Quiet (query : String) (c : Config) : Prop :=
  c.attempted = [] ∧
    match c.producer with
    | .ranging rest =>
      ∀ x ∈ rest, Contains x.Data.Summary query = false ∧ Contains x.Data.Details "error" = false
    | .sending _ _ => False
    | .exited => True

/-- The bookkeeping of `eventChan`: the caller receives at most once, it has
received nothing while it is still in the `select`, and the goroutine has begun
exactly one more send than was received when it is blocked in a send, and
exactly as many otherwise. -/
def Handoff (c : Config) : Prop :=
  c.delivered.length ≤ 1 ∧
    (c.consumer = .selecting → c.delivered = []) ∧
    match c.producer with
    | .sending _ _ => c.attempted.length = c.delivered.length + 1
    | _ => c.attempted.length = c.delivered.length

/-! ## Lemmas on `Split` -/

theorem splitChars_fst_not_mem (sep : Char) (l : List Char) :
    sep ∉ (splitChars sep l).1 := by
  induction l with
  | nil => simp [splitChars]
  | cons c cs ih =>
    by_cases h : c = sep
    · simp [splitChars, h]
    · simp only [splitChars, h, if_false, List.mem_cons, not_or]
      exact ⟨fun e => h e.symm, ih⟩

theorem splitChars_fst_of_not_mem (sep : Char) (l : List Char) (h : sep ∉ l) :
    (splitChars sep l).1 = l := by
  induction l with
  | nil => simp [splitChars]
  | cons c cs ih =>
    simp only [List.mem_cons, not_or] at h
    have hc : c ≠ sep := fun e => h.1 e.symm
    simp [splitChars, hc, ih h.2]

/-- The first segment is the text before the first separator. -/
theorem splitChars_fst_eq_takeWhile (sep : Char) (l : List Char) :
    (splitChars sep l).1 = l.takeWhile (fun c => c != sep) := by
  induction l with
  | nil => simp [splitChars]
  | cons c cs ih =>
    by_cases h : c = sep
    · simp [splitChars, h]
    · simp [splitChars, h, ih]

theorem Split_zero (s : String) (sep : Char) :
    (Split s sep)[0]? = some (String.mk (splitChars sep s.data).1) := by
  simp [Split]

theorem Split_zero_no_sep (s name : String) (sep : Char)
    (h : (Split s sep)[0]? = some name) : sep ∉ name.data := by
  rw [Split_zero] at h
  cases h
  exact splitChars_fst_not_mem sep s.data

theorem Split_zero_of_no_sep (s : String) (sep : Char) (h : sep ∉ s.data) :
    (Split s sep)[0]? = some s := by
  rw [Split_zero, splitChars_fst_of_not_mem sep s.data h]

/-! ## Lemmas on the resolution loop -/

theorem resolveStep_eq (st : CmdState) (adapter : Adapter) :
    resolveStep st adapter =
      some (if (Split adapter.Location ':')[0]? = some st.adapterURL then
        { adapterURL := adapter.Location, meshName := adapter.Location } else st) := by
  simp only [resolveStep, Split_zero, Option.some.injEq]
  split <;> rfl

theorem resolveAdapter_cons (adapter : Adapter) (rest : List Adapter) (st : CmdState) :
    resolveAdapter (adapter :: rest) st =
      resolveAdapter rest (if (Split adapter.Location ':')[0]? = some st.adapterURL then
        { adapterURL := adapter.Location, meshName := adapter.Location } else st) := by
  simp [resolveAdapter, resolveStep_eq]

/-- Once `adapterURL` holds a colon no entry can match it any more. -/
theorem resolveAdapter_of_colon (adapters : List Adapter) (st : CmdState)
    (h : ':' ∈ st.adapterURL.data) : resolveAdapter adapters st = some st := by
  induction adapters with
  | nil => rfl
  | cons a rest ih =>
    rw [resolveAdapter_cons]
    have hne : ¬ (Split a.Location ':')[0]? = some st.adapterURL :=
      fun e => Split_zero_no_sep _ _ _ e h
    rw [if_neg hne]
    exact ih

/-- The loop never faults, and `adapterURL` either keeps its value or ends as a
location holding a colon. -/
theorem resolveAdapter_total (adapters : List Adapter) (st : CmdState) :
    ∃ st1, resolveAdapter adapters st = some st1 ∧
      (st1.adapterURL = st.adapterURL ∨ ':' ∈ st1.adapterURL.data) := by
  induction adapters generalizing st with
  | nil => exact ⟨st, rfl, Or.inl rfl⟩
  | cons a rest ih =>
    rw [resolveAdapter_cons]
    by_cases hm : (Split a.Location ':')[0]? = some st.adapterURL
    · rw [if_pos hm]
      by_cases hc : ':' ∈ a.Location.data
      · exact ⟨_, resolveAdapter_of_colon rest _ hc, Or.inr hc⟩
      · have hloc : a.Location = st.adapterURL := by
          have := Split_zero_of_no_sep a.Location ':' hc
          rw [this] at hm
          exact Option.some.inj hm
        obtain ⟨st1, h1, h2⟩ := ih { adapterURL := a.Location, meshName := a.Location }
        exact ⟨st1, h1, by simpa [hloc] using h2⟩
    · rw [if_neg hm]
      exact ih st

theorem resolveAdapter_append (l1 l2 : List Adapter) (st : CmdState) :
    resolveAdapter (l1 ++ l2) st = (resolveAdapter l1 st).bind (resolveAdapter l2) := by
  induction l1 generalizing st with
  | nil => rfl
  | cons a rest ih =>
    rw [List.cons_append, resolveAdapter_cons, resolveAdapter_cons, ih]

/-- Entries whose matching locations hold no colon leave `adapterURL` alone and
set `meshName`, at most, to the same name. -/
theorem resolveAdapter_colonless (l : List Adapter) (requested mesh0 : String)
    (h : ∀ a ∈ l, (Split a.Location ':')[0]? = some requested → ':' ∉ a.Location.data) :
    ∃ mesh1, resolveAdapter l { adapterURL := requested, meshName := mesh0 } =
        some { adapterURL := requested, meshName := mesh1 } ∧
      (mesh1 = mesh0 ∨ mesh1 = requested) := by
  induction l generalizing mesh0 with
  | nil => exact ⟨mesh0, rfl, Or.inl rfl⟩
  | cons a rest ih =>
    have hrest : ∀ b ∈ rest, (Split b.Location ':')[0]? = some requested →
        ':' ∉ b.Location.data := fun b hb => h b (List.mem_cons_of_mem a hb)
    rw [resolveAdapter_cons]
    by_cases hm : (Split a.Location ':')[0]? = some requested
    · have hc := h a (List.mem_cons_self a rest) hm
      have hloc : a.Location = requested := by
        have := Split_zero_of_no_sep a.Location ':' hc
        rw [this] at hm
        exact Option.some.inj hm
      rw [if_pos hm, hloc]
      obtain ⟨mesh1, h1, h2⟩ := ih requested hrest
      exact ⟨mesh1, h1, Or.inr (by rcases h2 with h2 | h2 <;> exact h2)⟩
    · rw [if_neg hm]
      exact ih mesh0 hrest

/-! ## Claims on adapter resolution -/

/-- C1, as stated, fails: with two entries whose leading segment is the
requested name, the second entry matches the request, yet the loop ends with
both identifiers equal to the FIRST entry's location (after the first
assignment `adapterURL` holds a colon and no later entry can equal it). -/
theorem resolveAdapter_any_match_counterexample :
    ({ Location := "meshery-istio:10001", Name := "istio-b" } : Adapter) ∈
        [({ Location := "meshery-istio:10000", Name := "istio-a" } : Adapter),
         { Location := "meshery-istio:10001", Name := "istio-b" }] ∧
      (Split "meshery-istio:10001" ':')[0]? = some "meshery-istio" ∧
      resolveAdapter
        [{ Location := "meshery-istio:10000", Name := "istio-a" },
         { Location := "meshery-istio:10001", Name := "istio-b" }]
        { adapterURL := "meshery-istio", meshName := "istio" } =
          some { adapterURL := "meshery-istio:10000", meshName := "meshery-istio:10000" } ∧
      resolveAdapter
        [{ Location := "meshery-istio:10000", Name := "istio-a" },
         { Location := "meshery-istio:10001", Name := "istio-b" }]
        { adapterURL := "meshery-istio", meshName := "istio" } ≠
          some { adapterURL := "meshery-istio:10001", meshName := "meshery-istio:10001" } := by
  decide

/-- C1, amended: take an entry whose location's segment before the first colon
equals the requested name, such that no matching entry before it has a colon in
its location, and such that either its own location has a colon or no matching
entry after it has one. Then, for every initial mesh name, the loop ends with
`adapterURL` and `meshName` both equal to that entry's full location. In other
words the identifiers end as the location of the first matching entry that
holds a colon, and as the matching entries' common location (the requested
name itself) when none holds a colon. -/
theorem resolveAdapter_first_colon_match (pre post : List Adapter) (entry : Adapter)
    (requested mesh0 : String)
    (hmatch : (Split entry.Location ':')[0]? = some requested)
    (hpre : ∀ a ∈ pre, (Split a.Location ':')[0]? = some requested → ':' ∉ a.Location.data)
    (hpost : ':' ∈ entry.Location.data ∨
      ∀ a ∈ post, (Split a.Location ':')[0]? = some requested → ':' ∉ a.Location.data) :
    resolveAdapter (pre ++ entry :: post) { adapterURL := requested, meshName := mesh0 } =
      some { adapterURL := entry.Location, meshName := entry.Location } := by
  obtain ⟨mesh1, h1, _⟩ := resolveAdapter_colonless pre requested mesh0 hpre
  rw [resolveAdapter_append, h1, Option.some_bind, resolveAdapter_cons, if_pos hmatch]
  by_cases hc : ':' ∈ entry.Location.data
  · exact resolveAdapter_of_colon post _ hc
  · have hloc : entry.Location = requested := by
      have := Split_zero_of_no_sep entry.Location ':' hc
      rw [this] at hmatch
      exact Option.some.inj hmatch
    have hp := hpost.resolve_left hc
    obtain ⟨mesh2, h2, h3⟩ := resolveAdapter_colonless post requested requested hp
    rw [hloc, h2]
    rcases h3 with h3 | h3 <;> rw [h3]

/-- Witness for C1 (amended): the second of three entries is the first matching
one with a colon; the entry before it matches without a colon. -/
theorem resolveAdapter_first_colon_match_witness :
    resolveAdapter
        ([{ Location := "meshery-istio", Name := "bare" },
          { Location := "meshery-osm:10009", Name := "osm" }] ++
          { Location := "meshery-istio:10000", Name := "istio-a" } ::
          [{ Location := "meshery-istio:10001", Name := "istio-b" }])
        { adapterURL := "meshery-istio", meshName := "istio" } =
      some { adapterURL := "meshery-istio:10000", meshName := "meshery-istio:10000" } :=
  resolveAdapter_first_colon_match
    [{ Location := "meshery-istio", Name := "bare" },
     { Location := "meshery-osm:10009", Name := "osm" }]
    [{ Location := "meshery-istio:10001", Name := "istio-b" }]
    { Location := "meshery-istio:10000", Name := "istio-a" }
    "meshery-istio" "istio" (by decide) (by decide) (Or.inl (by decide))

/-- C2: when no entry's location has a leading segment (the text before the
first colon) equal to the requested adapter name, the loop ends without a fault
and leaves `adapterURL` and `meshName` exactly as they were. -/
theorem resolveAdapter_no_match (adapters : List Adapter) (st : CmdState)
    (h : ∀ a ∈ adapters, (Split a.Location ':')[0]? ≠ some st.adapterURL) :
    resolveAdapter adapters st = some st := by
  induction adapters with
  | nil => rfl
  | cons a rest ih =>
    rw [resolveAdapter_cons, if_neg (h a (List.mem_cons_self a rest))]
    exact ih (fun b hb => h b (List.mem_cons_of_mem a hb))

/-- Witness for C2: the default adapter name against a list without it. -/
theorem resolveAdapter_no_match_witness :
    (∀ a ∈ [({ Location := "meshery-istio:10000", Name := "istio" } : Adapter),
            { Location := "meshery-linkerd:10001", Name := "linkerd" },
            { Location := "", Name := "empty" }],
        (Split a.Location ':')[0]? ≠ some "meshery-osm") ∧
      resolveAdapter
        [{ Location := "meshery-istio:10000", Name := "istio" },
         { Location := "meshery-linkerd:10001", Name := "linkerd" },
         { Location := "", Name := "empty" }]
        { adapterURL := "meshery-osm", meshName := "osm" } =
      some { adapterURL := "meshery-osm", meshName := "osm" } :=
  ⟨by decide,
   resolveAdapter_no_match
    [{ Location := "meshery-istio:10000", Name := "istio" },
     { Location := "meshery-linkerd:10001", Name := "linkerd" },
     { Location := "", Name := "empty" }]
    { adapterURL := "meshery-osm", meshName := "osm" } (by decide)⟩

/-- A state the loop produced is a fixed point of the loop. -/
theorem resolveAdapter_stable (adapters : List Adapter) (st st1 : CmdState)
    (h : resolveAdapter adapters st = some st1) : resolveAdapter adapters st1 = some st1 := by
  induction adapters generalizing st with
  | nil => rfl
  | cons a rest ih =>
    rw [resolveAdapter_cons] at h ⊢
    by_cases hm : (Split a.Location ':')[0]? = some st.adapterURL
    · rw [if_pos hm] at h
      by_cases hm1 : (Split a.Location ':')[0]? = some st1.adapterURL
      · rw [if_pos hm1]; exact h
      · rw [if_neg hm1]; exact ih _ h
    · rw [if_neg hm] at h
      have hm1 : ¬ (Split a.Location ':')[0]? = some st1.adapterURL := by
        intro e
        obtain ⟨st2, h2, h3⟩ := resolveAdapter_total rest st
        rw [h] at h2
        cases h2
        rcases h3 with h3 | h3
        · exact hm (h3 ▸ e)
        · exact Split_zero_no_sep _ _ _ e h3
      rw [if_neg hm1]
      exact ih _ h

/-- C9: for every adapter list, requested adapter name and initial mesh name,
the loop produces a pair (`adapterURL`, `meshName`), and running the loop again
with the same list on that pair leaves it unchanged. -/
theorem resolveAdapter_idempotent (adapters : List Adapter) (requested mesh0 : String) :
    ∃ st1, resolveAdapter adapters { adapterURL := requested, meshName := mesh0 } = some st1 ∧
      resolveAdapter adapters st1 = some st1 := by
  obtain ⟨st1, h1, _⟩ :=
    resolveAdapter_total adapters { adapterURL := requested, meshName := mesh0 }
  exact ⟨st1, h1, resolveAdapter_stable adapters _ st1 h1⟩

/-- C10: for every location string (empty, colon-free, or made of colons
only) splitting on ":" yields at least one segment, so `adapterName[0]` is in
range; hence every iteration, and the whole loop on every adapter list and
every state, completes without an indexing fault. -/
theorem resolveAdapter_index_in_range :
    (∀ Location : String, 0 < (Split Location ':').length ∧
        ∃ name, (Split Location ':')[0]? = some name) ∧
      (∀ (st : CmdState) (adapter : Adapter), resolveStep st adapter ≠ none) ∧
      (∀ (adapters : List Adapter) (st : CmdState),
        ∃ st1, resolveAdapter adapters st = some st1) := by
  refine ⟨fun Location => ⟨by simp [Split], _, Split_zero Location ':'⟩, ?_, ?_⟩
  · intro st adapter
    rw [resolveStep_eq]
    exact Option.some_ne_none _
  · intro adapters st
    obtain ⟨st1, h1, _⟩ := resolveAdapter_total adapters st
    exact ⟨st1, h1⟩


/-! ## Lemmas on the machine -/

theorem timerFirst_of_lt (timerOnTie : Bool) (i : Arrival) (h : i.time < timeout) :
    timerFirst timerOnTie i = false := by
  have h1 : ¬ timeout < i.time := by omega
  have h2 : ¬ i.time = timeout := by omega
  simp [timerFirst, h1, h2]

theorem timerFirst_of_gt (timerOnTie : Bool) (i : Arrival) (h : timeout < i.time) :
    timerFirst timerOnTie i = true := by
  simp [timerFirst, h]

theorem run_of_stuck (query : String) (tie : Bool) (fuel : Nat) (c : Config)
    (h : step query tie c = none) : run query tie fuel c = c := by
  cases fuel with
  | zero => rfl
  | succ n => simp [run, h]

theorem run_add (query : String) (tie : Bool) (a b : Nat) (c : Config) :
    run query tie (a + b) c = run query tie b (run query tie a c) := by
  induction a generalizing c with
  | zero => simp [run]
  | succ n ih =>
    rw [Nat.succ_add]
    cases hs : step query tie c with
    | none => simp [run, hs, run_of_stuck query tie b c hs]
    | some c1 => simp [run, hs, ih]

/-- Once the caller has returned, its result never changes. -/
theorem step_returned (query : String) (tie : Bool) (c c1 : Config) (err : Option Error)
    (hc : c.consumer = .returned err) (hs : step query tie c = some c1) :
    c1.consumer = .returned err := by
  obtain ⟨p, k, att, del⟩ := c
  simp only at hc
  subst hc
  cases p with
  | ranging rest =>
    cases rest with
    | nil => simp only [step, Option.some.injEq] at hs; subst hs; rfl
    | cons i rest =>
      have hk : ¬ ((Consumer.returned err = Consumer.selecting) ∧ timerFirst tie i = true) :=
        fun h => Consumer.noConfusion h.1
      simp only [step, if_neg hk] at hs
      split at hs
      · cases hs; rfl
      · split at hs <;> (cases hs; rfl)
  | sending v rest => simp [step] at hs
  | exited => simp [step] at hs

theorem run_returned (query : String) (tie : Bool) (fuel : Nat) (c : Config)
    (err : Option Error) (hc : c.consumer = .returned err) :
    (run query tie fuel c).consumer = .returned err := by
  induction fuel generalizing c with
  | zero => exact hc
  | succ n ih =>
    cases hs : step query tie c with
    | none => simpa [run, hs] using hc
    | some c1 =>
      simp only [run, hs]
      exact ih c1 (step_returned query tie c c1 err hc hs)

/-- Items that come before the timer and match neither test are skipped, one
transition each. -/
theorem run_skip (query : String) (tie : Bool) (pre rest : List Arrival) (n : Nat)
    (k : Consumer) (att del : List String)
    (htime : ∀ x ∈ pre, x.time < timeout)
    (h : ∀ x ∈ pre, Contains x.Data.Summary query = false ∧
      Contains x.Data.Details "error" = false) :
    run query tie (pre.length + n)
        { producer := .ranging (pre ++ rest), consumer := k, attempted := att, delivered := del } =
      run query tie n
        { producer := .ranging rest, consumer := k, attempted := att, delivered := del } := by
  induction pre with
  | nil => simp
  | cons x xs ih =>
    have hx := h x (List.mem_cons_self x xs)
    have ht := timerFirst_of_lt tie x (htime x (List.mem_cons_self x xs))
    have hxs : ∀ y ∈ xs, Contains y.Data.Summary query = false ∧
        Contains y.Data.Details "error" = false := fun y hy => h y (List.mem_cons_of_mem x hy)
    have hts : ∀ y ∈ xs, y.time < timeout := fun y hy => htime y (List.mem_cons_of_mem x hy)
    rw [List.length_cons, Nat.succ_add, List.cons_append]
    simp only [run, step, hx.1, hx.2, ht, Bool.false_eq_true, and_false, if_false]
    exact ih hts hxs

/-- The number of transitions `awaitSignal` allows, split at the first item
that publishes a signal. -/
theorem fuel_split (pre post : List Arrival) (i : Arrival) :
    2 * (pre ++ i :: post).length + 2 =
      pre.length + (2 + (pre.length + 2 * post.length + 2)) := by
  simp only [List.length_append, List.length_cons]
  omega

/-- The first item that publishes a signal decides the result of the wait, when
it and the items before it come before the timer. -/
theorem awaitSignal_first (query : String) (tie : Bool) (pre post : List Arrival) (i : Arrival)
    (htime : ∀ x ∈ pre, x.time < timeout) (hitime : i.time < timeout)
    (hpre : ∀ x ∈ pre, Contains x.Data.Summary query = false ∧
      Contains x.Data.Details "error" = false)
    (hi : Contains i.Data.Summary query = true ∨ Contains i.Data.Details "error" = true) :
    awaitSignal query tie (pre ++ i :: post) =
      .returned "" (if Contains i.Data.Summary query then none
        else some .ErrSMIConformanceTestsFailed) := by
  unfold awaitSignal Config.init
  have ht := timerFirst_of_lt tie i hitime
  rw [fuel_split, run_skip query tie pre (i :: post) _ _ _ _ htime hpre, run_add]
  by_cases hs : Contains i.Data.Summary query = true
  · have h2 : run query tie 2 (Config.mk (.ranging (i :: post)) .selecting [] []) =
        Config.mk (.ranging post) (.returned none) ["successful"] ["successful"] := by
      simp [run, step, hs, ht]
    rw [h2, run_returned query tie _ _ none rfl]
    simp [hs]
  · have hd : Contains i.Data.Details "error" = true := hi.resolve_left hs
    have h2 : run query tie 2 (Config.mk (.ranging (i :: post)) .selecting [] []) =
        Config.mk (.ranging post) (.returned (some .ErrSMIConformanceTestsFailed))
          ["error"] ["error"] := by
      simp [run, step, hs, hd, ht]
    rw [h2, run_returned query tie _ _ (some .ErrSMIConformanceTestsFailed) rfl]
    simp [hs]

/-- An item that comes after the timer, with only quiet items before it, ends
the wait in the timer branch. -/
theorem awaitSignal_late (query : String) (tie : Bool) (pre post : List Arrival) (i : Arrival)
    (htime : ∀ x ∈ pre, x.time < timeout) (hitime : timeout < i.time)
    (hpre : ∀ x ∈ pre, Contains x.Data.Summary query = false ∧
      Contains x.Data.Details "error" = false) :
    awaitSignal query tie (pre ++ i :: post) =
      .returned "" (some .ErrTimeoutWaitingForValidateResponse) := by
  unfold awaitSignal Config.init
  have ht := timerFirst_of_gt tie i hitime
  rw [fuel_split, run_skip query tie pre (i :: post) _ _ _ _ htime hpre, run_add]
  have h2 : (run query tie 1 (Config.mk (.ranging (i :: post)) .selecting [] [])).consumer =
      .returned (some .ErrTimeoutWaitingForValidateResponse) := by
    simp [run, step, ht]
  have h3 : (run query tie 2 (Config.mk (.ranging (i :: post)) .selecting [] [])).consumer =
      .returned (some .ErrTimeoutWaitingForValidateResponse) := by
    rw [show (2 : Nat) = 1 + 1 from rfl, run_add]
    exact run_returned query tie _ _ _ h2
  rw [run_returned query tie _ _ _ h3]

theorem run_invariant (query : String) (tie : Bool) (P : Config → Prop)
    (hstep : ∀ c c1, P c → step query tie c = some c1 → P c1)
    (fuel : Nat) (c : Config) (hc : P c) : P (run query tie fuel c) := by
  induction fuel generalizing c with
  | zero => exact hc
  | succ n ih =>
    cases hs : step query tie c with
    | none => simpa [run, hs] using hc
    | some c1 =>
      simp only [run, hs]
      exact ih c1 (hstep c c1 hc hs)

/-- On items that match neither test the caller ends in the timer branch,
whenever the items come. -/
theorem run_no_signal (query : String) (tie : Bool) (event : List Arrival) (n : Nat)
    (att del : List String)
    (h : ∀ x ∈ event, Contains x.Data.Summary query = false ∧
      Contains x.Data.Details "error" = false) :
    (run query tie (event.length + 2 + n)
        (Config.mk (.ranging event) .selecting att del)).consumer =
      .returned (some .ErrTimeoutWaitingForValidateResponse) := by
  induction event with
  | nil =>
    have h2 : (run query tie 2 (Config.mk (.ranging []) .selecting att del)).consumer =
        .returned (some .ErrTimeoutWaitingForValidateResponse) := by
      simp [run, step]
    rw [List.length_nil, Nat.zero_add, run_add]
    exact run_returned query tie _ _ _ h2
  | cons x xs ih =>
    have hx := h x (List.mem_cons_self x xs)
    have hxs : ∀ y ∈ xs, Contains y.Data.Summary query = false ∧
        Contains y.Data.Details "error" = false := fun y hy => h y (List.mem_cons_of_mem x hy)
    have hf : (x :: xs).length + 2 + n = 1 + (xs.length + 2 + n) := by
      simp only [List.length_cons]; omega
    rw [hf, run_add]
    by_cases ht : timerFirst tie x = true
    · have h1 : (run query tie 1 (Config.mk (.ranging (x :: xs)) .selecting att del)).consumer =
          .returned (some .ErrTimeoutWaitingForValidateResponse) := by
        simp [run, step, ht]
      exact run_returned query tie _ _ _ h1
    · have h1 : run query tie 1 (Config.mk (.ranging (x :: xs)) .selecting att del) =
          Config.mk (.ranging xs) .selecting att del := by
        simp [run, step, ht, hx.1, hx.2]
      rw [h1]
      exact ih hxs

/-- A stream without a matching item ends in the timer branch. -/
theorem awaitSignal_no_signal (query : String) (tie : Bool) (event : List Arrival)
    (h : ∀ x ∈ event, Contains x.Data.Summary query = false ∧
      Contains x.Data.Details "error" = false) :
    awaitSignal query tie event = .returned "" (some .ErrTimeoutWaitingForValidateResponse) := by
  unfold awaitSignal Config.init
  have hf : 2 * event.length + 2 = event.length + 2 + event.length := by omega
  rw [hf, run_no_signal query tie event event.length [] [] h]

theorem step_quiet (query : String) (tie : Bool) (c c1 : Config) (hc : Quiet query c)
    (hs : step query tie c = some c1) : Quiet query c1 := by
  obtain ⟨p, k, att, del⟩ := c
  obtain ⟨hatt, hp⟩ := hc
  simp only at hatt
  subst hatt
  cases p with
  | ranging rest =>
    cases rest with
    | nil =>
      simp only [step, Option.some.injEq] at hs
      subst hs
      exact ⟨rfl, trivial⟩
    | cons i rest =>
      simp only at hp
      have hi := hp i (List.mem_cons_self i rest)
      simp only [step, hi.1, hi.2, Bool.false_eq_true, if_false] at hs
      split at hs
      · cases hs
        exact ⟨rfl, hp⟩
      · cases hs
        exact ⟨rfl, fun x hx => hp x (List.mem_cons_of_mem i hx)⟩
  | sending v rest => exact hp.elim
  | exited =>
    cases k with
    | selecting =>
      simp only [step, Option.some.injEq] at hs
      subst hs
      exact ⟨rfl, trivial⟩
    | returned err => simp [step] at hs

theorem step_handoff (query : String) (tie : Bool) (c c1 : Config) (hc : Handoff c)
    (hs : step query tie c = some c1) : Handoff c1 := by
  obtain ⟨p, k, att, del⟩ := c
  obtain ⟨h1, h2, h3⟩ := hc
  cases p with
  | ranging rest =>
    cases rest with
    | nil =>
      simp only [step, Option.some.injEq] at hs
      subst hs
      exact ⟨h1, h2, h3⟩
    | cons i rest =>
      simp only at h1 h2 h3
      simp only [step] at hs
      split at hs
      · cases hs
        exact ⟨h1, by simp, h3⟩
      · split at hs
        · cases hs
          exact ⟨h1, h2, by simp [h3]⟩
        · split at hs
          · cases hs
            exact ⟨h1, h2, by simp [h3]⟩
          · cases hs
            exact ⟨h1, h2, h3⟩
  | sending v rest =>
    cases k with
    | selecting =>
      simp only [step, Option.some.injEq] at hs
      subst hs
      have hd : del = [] := h2 rfl
      subst hd
      simp only at h3
      refine ⟨by simp, by simp, ?_⟩
      simpa using h3
    | returned err => simp [step] at hs
  | exited =>
    cases k with
    | selecting =>
      simp only [step, Option.some.injEq] at hs
      subst hs
      refine ⟨h1, by simp, h3⟩
    | returned err => simp [step] at hs

theorem waitForValidateResponse_of_opens {Response : Type} (env : Env Response)
    (query : String) (event : List Arrival) (h : env.opens event) :
    (waitForValidateResponse env query).1 = awaitSignal query env.timerOnTie event := by
  obtain ⟨req, res, h1, h2, h3⟩ := h
  simp [waitForValidateResponse, h1, h2, h3]

theorem simulated_opens (tie : Bool) (event : List Arrival) :
    (simulated tie event).opens event :=
  ⟨_, (), rfl, rfl, rfl⟩

/-- The wait always returns: the transitions allowed are enough on every stream. -/
theorem run_returns (query : String) (tie : Bool) (event : List Arrival) (n : Nat)
    (att del : List String) :
    ∃ err, (run query tie (2 * event.length + 2 + n)
        (Config.mk (.ranging event) .selecting att del)).consumer = .returned err := by
  induction event generalizing n with
  | nil =>
    refine ⟨some .ErrTimeoutWaitingForValidateResponse, ?_⟩
    have h2 : (run query tie 2 (Config.mk (.ranging []) .selecting att del)).consumer =
        .returned (some .ErrTimeoutWaitingForValidateResponse) := by
      simp [run, step]
    rw [List.length_nil, Nat.mul_zero, Nat.zero_add, run_add]
    exact run_returned query tie _ _ _ h2
  | cons x xs ih =>
    have hf : 2 * (x :: xs).length + 2 + n = 2 + (2 * xs.length + 2 + n) := by
      simp only [List.length_cons]; omega
    rw [hf, run_add]
    by_cases ht : timerFirst tie x = true
    · refine ⟨some .ErrTimeoutWaitingForValidateResponse, ?_⟩
      have h1 : (run query tie 1 (Config.mk (.ranging (x :: xs)) .selecting att del)).consumer =
          .returned (some .ErrTimeoutWaitingForValidateResponse) := by
        simp [run, step, ht]
      have h2 : (run query tie 2 (Config.mk (.ranging (x :: xs)) .selecting att del)).consumer =
          .returned (some .ErrTimeoutWaitingForValidateResponse) := by
        rw [show (2 : Nat) = 1 + 1 from rfl, run_add]
        exact run_returned query tie _ _ _ h1
      exact run_returned query tie _ _ _ h2
    · by_cases hs : Contains x.Data.Summary query = true
      · refine ⟨none, ?_⟩
        have h2 : (run query tie 2
            (Config.mk (.ranging (x :: xs)) .selecting att del)).consumer =
            .returned none := by
          simp [run, step, ht, hs]
        exact run_returned query tie _ _ _ h2
      · by_cases hd : Contains x.Data.Details "error" = true
        · refine ⟨some .ErrSMIConformanceTestsFailed, ?_⟩
          have h2 : (run query tie 2
              (Config.mk (.ranging (x :: xs)) .selecting att del)).consumer =
              .returned (some .ErrSMIConformanceTestsFailed) := by
            simp [run, step, ht, hs, hd]
          exact run_returned query tie _ _ _ h2
        · have h1 : run query tie 1 (Config.mk (.ranging (x :: xs)) .selecting att del) =
              Config.mk (.ranging xs) .selecting att del := by
            simp [run, step, ht, hs, hd]
          have hf2 : 2 + (2 * xs.length + 2 + n) = 1 + (2 * xs.length + 2 + (n + 1)) := by
            omega
          rw [← run_add, hf2, run_add, h1]
          exact ih (n + 1)

theorem awaitSignal_returns (query : String) (tie : Bool) (event : List Arrival) :
    ∃ err, awaitSignal query tie event = .returned "" err := by
  obtain ⟨err, h⟩ := run_returns query tie event 0 [] []
  refine ⟨err, ?_⟩
  unfold awaitSignal Config.init
  rw [Nat.add_zero] at h
  rw [h]

/-- With a non-nil request the request-construction error is returned before
any call is made. -/
theorem waitForValidateResponse_request_error {Response : Type} (env : Env Response)
    (query : String) (req : Request) (cause : Cause)
    (h : env.NewRequest "GET" (env.baseURL ++ "/api/events?client=cli_validate") =
      (some req, some cause)) :
    waitForValidateResponse env query =
      (.returned "" (some (.ErrCreatingDeployResponseRequest cause)), []) := by
  simp [waitForValidateResponse, h]

theorem handoff_facts (query : String) (tie : Bool) (c : Config) (h : Handoff c) :
    c.delivered.length ≤ 1 ∧
      c.attempted.length ≤ c.delivered.length + 1 ∧
      (c.delivered.length < c.attempted.length → ∃ v rest, c.producer = .sending v rest) ∧
      (c.attempted.length = 2 → step query tie c = none) := by
  obtain ⟨p, k, att, del⟩ := c
  obtain ⟨h1, h2, h3⟩ := h
  simp only at h1 h2 h3
  cases p with
  | ranging rest =>
    simp only at h3
    exact ⟨h1, by simp [h3], fun hlt => absurd hlt (by simp [h3]),
      fun h2a => absurd h2a (by simp only; omega)⟩
  | exited =>
    simp only at h3
    exact ⟨h1, by simp [h3], fun hlt => absurd hlt (by simp [h3]),
      fun h2a => absurd h2a (by simp only; omega)⟩
  | sending v rest =>
    simp only at h3
    refine ⟨h1, by simp [h3], fun _ => ⟨v, rest, rfl⟩, fun h2a => ?_⟩
    simp only at h2a
    cases k with
    | selecting =>
      have hd : del = [] := h2 rfl
      subst hd
      simp at h3
      omega
    | returned err => simp [step]

/-! ## Claims on the event-stream wait -/

/-- C3, as stated, fails: a stream whose only item has a Summary containing the
query meets the conditions of the claim, but when that item comes 1300 seconds
after the timer was armed the `case <-timer.C` branch has already run and the
wait returns the time-out error, not nil. -/
theorem waitForValidateResponse_late_summary_counterexample :
    Contains "Smi conformance test passed" "Smi conformance test" = true ∧
      (waitForValidateResponse
        (simulated false
          [{ time := 1300 * Second,
             Data := { Summary := "Smi conformance test passed", Details := "ok" } }])
        "Smi conformance test").1 =
        .returned "" (some .ErrTimeoutWaitingForValidateResponse) ∧
      (waitForValidateResponse
        (simulated false
          [{ time := 1300 * Second,
             Data := { Summary := "Smi conformance test passed", Details := "ok" } }])
        "Smi conformance test").1 ≠ .returned "" none := by
  decide

/-- C3, amended: when the stream holds an item whose Summary contains the
query, no earlier item has a Summary containing the query or Details containing
"error", and that item and the items before it come less than 1200 seconds
after the timer was armed, `waitForValidateResponse` returns `"", nil`
(classified "successful"), whatever items follow and whenever they come. -/
theorem waitForValidateResponse_summary_match {Response : Type} (env : Env Response)
    (query : String) (pre post : List Arrival) (i : Arrival)
    (hopen : env.opens (pre ++ i :: post))
    (hpre : ∀ x ∈ pre, Contains x.Data.Summary query = false ∧
      Contains x.Data.Details "error" = false)
    (htime : ∀ x ∈ pre, x.time < timeout)
    (hitime : i.time < timeout)
    (hi : Contains i.Data.Summary query = true) :
    (waitForValidateResponse env query).1 = .returned "" none := by
  rw [waitForValidateResponse_of_opens env query _ hopen,
    awaitSignal_first query env.timerOnTie pre post i htime hitime hpre (Or.inl hi)]
  simp [hi]

/-- Witness for C3 (amended): the query of `validateCmd.RunE` and a stream that
emits a passing summary after an unrelated item, both within the 1200 seconds,
and an error item after them. -/
theorem waitForValidateResponse_summary_match_witness :
    (waitForValidateResponse
      (simulated true
        ([{ time := 2 * Second, Data := { Summary := "Deploying", Details := "in progress" } }] ++
        { time := 40 * Second,
          Data := { Summary := "Smi conformance test passed", Details := "ok" } } ::
        [{ time := 1500 * Second,
           Data := { Summary := "unrelated", Details := "an error occurred" } }]))
      "Smi conformance test").1 = .returned "" none :=
  waitForValidateResponse_summary_match _ "Smi conformance test"
    [{ time := 2 * Second, Data := { Summary := "Deploying", Details := "in progress" } }]
    [{ time := 1500 * Second, Data := { Summary := "unrelated", Details := "an error occurred" } }]
    { time := 40 * Second, Data := { Summary := "Smi conformance test passed", Details := "ok" } }
    (simulated_opens _ _) (by decide) (by decide) (by decide) (by decide)

/-- C4, as stated, fails: a stream whose only item has Details containing
"error" and a Summary without the query meets the conditions of the claim, but
when that item comes 1201 seconds after the timer was armed the wait returns
the time-out error, not `ErrSMIConformanceTestsFailed`. -/
theorem waitForValidateResponse_late_error_counterexample :
    Contains "unrelated" "Smi conformance test" = false ∧
      Contains "an error occurred" "error" = true ∧
      (waitForValidateResponse
        (simulated false
          [{ time := 1201 * Second,
             Data := { Summary := "unrelated", Details := "an error occurred" } }])
        "Smi conformance test").1 =
        .returned "" (some .ErrTimeoutWaitingForValidateResponse) ∧
      (waitForValidateResponse
        (simulated false
          [{ time := 1201 * Second,
             Data := { Summary := "unrelated", Details := "an error occurred" } }])
        "Smi conformance test").1 ≠ .returned "" (some .ErrSMIConformanceTestsFailed) := by
  decide

/-- C4, amended: when the stream holds an item whose Details contains "error"
and whose Summary does not contain the query, no earlier item has a Summary
containing the query or Details containing "error", and that item and the
items before it come less than 1200 seconds after the timer was armed,
`waitForValidateResponse` returns `ErrSMIConformanceTestsFailed`, even if a
later Summary contains the query. -/
theorem waitForValidateResponse_error_event {Response : Type} (env : Env Response)
    (query : String) (pre post : List Arrival) (i : Arrival)
    (hopen : env.opens (pre ++ i :: post))
    (hpre : ∀ x ∈ pre, Contains x.Data.Summary query = false ∧
      Contains x.Data.Details "error" = false)
    (htime : ∀ x ∈ pre, x.time < timeout)
    (hitime : i.time < timeout)
    (hsummary : Contains i.Data.Summary query = false)
    (hdetails : Contains i.Data.Details "error" = true) :
    (waitForValidateResponse env query).1 =
      .returned "" (some .ErrSMIConformanceTestsFailed) := by
  rw [waitForValidateResponse_of_opens env query _ hopen,
    awaitSignal_first query env.timerOnTie pre post i htime hitime hpre (Or.inr hdetails)]
  simp [hsummary]

/-- Witness for C4 (amended): an error item comes, in time, before a passing
summary. -/
theorem waitForValidateResponse_error_event_witness :
    (waitForValidateResponse
      (simulated true
        ([] ++ { time := 5 * Second,
                 Data := { Summary := "unrelated", Details := "an error occurred" } } ::
        [{ time := 6 * Second,
           Data := { Summary := "Smi conformance test passed", Details := "ok" } }]))
      "Smi conformance test").1 = .returned "" (some .ErrSMIConformanceTestsFailed) :=
  waitForValidateResponse_error_event _ "Smi conformance test" []
    [{ time := 6 * Second,
       Data := { Summary := "Smi conformance test passed", Details := "ok" } }]
    { time := 5 * Second, Data := { Summary := "unrelated", Details := "an error occurred" } }
    (simulated_opens _ _) (by decide) (by decide) (by decide) (by decide) (by decide)

/-- C5: when no item of the stream has a Summary containing the query or
Details containing "error" (the empty stream included), whenever the items
come, the goroutine never begins a send on `eventChan`, and
`waitForValidateResponse` returns `ErrTimeoutWaitingForValidateResponse`. -/
theorem waitForValidateResponse_timeout {Response : Type} (env : Env Response)
    (query : String) (event : List Arrival)
    (hopen : env.opens event)
    (h : ∀ x ∈ event, Contains x.Data.Summary query = false ∧
      Contains x.Data.Details "error" = false) :
    (waitForValidateResponse env query).1 =
        .returned "" (some .ErrTimeoutWaitingForValidateResponse) ∧
      ∀ tie fuel, (run query tie fuel (Config.init event)).attempted = [] := by
  refine ⟨?_, fun tie fuel => ?_⟩
  · rw [waitForValidateResponse_of_opens env query _ hopen,
      awaitSignal_no_signal query env.timerOnTie event h]
  · exact (run_invariant query tie (Quiet query) (step_quiet query tie) fuel (Config.init event)
      ⟨rfl, h⟩).1

/-- Witness for C5: a stream that closes after two items matching neither test. -/
theorem waitForValidateResponse_timeout_witness :
    (waitForValidateResponse
        (simulated false
          [{ time := 2 * Second, Data := { Summary := "Deploying", Details := "in progress" } },
           { time := 9 * Second, Data := { Summary := "Deployed", Details := "ok" } }])
        "Smi conformance test").1 =
        .returned "" (some .ErrTimeoutWaitingForValidateResponse) ∧
      ∀ tie fuel, (run "Smi conformance test" tie fuel
        (Config.init
          [{ time := 2 * Second, Data := { Summary := "Deploying", Details := "in progress" } },
           { time := 9 * Second, Data := { Summary := "Deployed", Details := "ok" } }])
        ).attempted = [] :=
  waitForValidateResponse_timeout _ "Smi conformance test"
    [{ time := 2 * Second, Data := { Summary := "Deploying", Details := "in progress" } },
     { time := 9 * Second, Data := { Summary := "Deployed", Details := "ok" } }]
    (simulated_opens _ _) (by decide)

/-- C6 fails on the code: when `utils.NewRequest` returns a nil request together
with its error, `req.Header.Add` runs before `err` is looked at, and the call
ends in a nil pointer dereference instead of returning the request-construction
error. -/
theorem waitForValidateResponse_nil_request {Response : Type} (baseURL query : String)
    (cause : Cause) (Do : Request → Except Cause Response)
    (ConvertRespToSSE : Response → Except Cause (List Arrival)) (timerOnTie : Bool) :
    waitForValidateResponse
        { baseURL := baseURL
          NewRequest := fun _ _ => (none, some cause)
          Do := Do
          ConvertRespToSSE := ConvertRespToSSE
          timerOnTie := timerOnTie } query =
      (.nilDereference, []) := by
  rfl

/-- C7, as stated, fails: a stream whose only item has a Summary containing the
query and Details containing "error" meets the conditions of the claim, but
when that item comes 1500 seconds after the timer was armed the wait is not
classified at all: it returns the time-out error, not nil. -/
theorem waitForValidateResponse_late_both_counterexample :
    Contains "Smi conformance test failed" "Smi conformance test" = true ∧
      Contains "error: 2 of 9 failed" "error" = true ∧
      (waitForValidateResponse
        (simulated true
          [{ time := 1500 * Second,
             Data := { Summary := "Smi conformance test failed",
                       Details := "error: 2 of 9 failed" } }])
        "Smi conformance test").1 =
        .returned "" (some .ErrTimeoutWaitingForValidateResponse) ∧
      (waitForValidateResponse
        (simulated true
          [{ time := 1500 * Second,
             Data := { Summary := "Smi conformance test failed",
                       Details := "error: 2 of 9 failed" } }])
        "Smi conformance test").1 ≠ .returned "" none := by
  decide

/-- C7, amended: when the first item satisfying either test has a Summary
containing the query and Details containing "error", and that item and the
items before it come less than 1200 seconds after the timer was armed, the
goroutine reaches the send of "successful" (the Details test is not run for
that item) and `waitForValidateResponse` returns `"", nil`, not the conformance
failure. -/
theorem waitForValidateResponse_summary_first {Response : Type} (env : Env Response)
    (query : String) (pre post : List Arrival) (i : Arrival)
    (hopen : env.opens (pre ++ i :: post))
    (hpre : ∀ x ∈ pre, Contains x.Data.Summary query = false ∧
      Contains x.Data.Details "error" = false)
    (htime : ∀ x ∈ pre, x.time < timeout)
    (hitime : i.time < timeout)
    (hsummary : Contains i.Data.Summary query = true)
    (hdetails : Contains i.Data.Details "error" = true) :
    (waitForValidateResponse env query).1 = .returned "" none ∧
      (waitForValidateResponse env query).1 ≠
        .returned "" (some .ErrSMIConformanceTestsFailed) ∧
      ∀ (tie : Bool) (k : Consumer) (att del : List String),
        step query tie (Config.mk (.ranging (i :: post)) k att del) =
          some (Config.mk (.sending "successful" post) k ("successful" :: att) del) := by
  have hres : (waitForValidateResponse env query).1 = .returned "" none := by
    rw [waitForValidateResponse_of_opens env query _ hopen,
      awaitSignal_first query env.timerOnTie pre post i htime hitime hpre (Or.inr hdetails)]
    simp [hsummary]
  refine ⟨hres, ?_, fun tie k att del => ?_⟩
  · rw [hres]
    simp
  · simp [step, hsummary, timerFirst_of_lt tie i hitime]

/-- Witness for C7 (amended): one item, in time, passes both tests. -/
theorem waitForValidateResponse_summary_first_witness :
    (waitForValidateResponse
        (simulated false
          ([] ++
            { time := 30 * Second,
              Data := { Summary := "Smi conformance test failed",
                        Details := "error: 2 of 9 failed" } } ::
            []))
        "Smi conformance test").1 = .returned "" none :=
  (waitForValidateResponse_summary_first _ "Smi conformance test" [] []
    { time := 30 * Second,
      Data := { Summary := "Smi conformance test failed", Details := "error: 2 of 9 failed" } }
    (simulated_opens _ _) (by decide) (by decide) (by decide) (by decide) (by decide)).1

/-- C8, as stated, fails: on a stream with two matching items the goroutine
begins a second send on `eventChan` after the first was received; only one
value is delivered and the goroutine stays blocked in the second send. -/
theorem eventChan_second_send_counterexample :
    (run "Smi conformance test" false 5
        (Config.init
          [{ time := 1 * Second,
             Data := { Summary := "Smi conformance test passed", Details := "ok" } },
           { time := 2 * Second,
             Data := { Summary := "Smi conformance test passed", Details := "ok" } }])) =
      { producer := .sending "successful" []
        consumer := .returned none
        attempted := ["successful", "successful"]
        delivered := ["successful"] } ∧
    ¬ (run "Smi conformance test" false 5
        (Config.init
          [{ time := 1 * Second,
             Data := { Summary := "Smi conformance test passed", Details := "ok" } },
           { time := 2 * Second,
             Data := { Summary := "Smi conformance test passed", Details := "ok" } }])
      ).attempted.length ≤ 1 := by
  decide

/-- C8, amended: for every event stream, whenever its items come, and at every
point of the run, at most one value has been received from `eventChan`; the
goroutine has begun at most one send more than was received, and then it is
inside that send; and once two sends have been begun (the second for a later
matching item) nothing can move any more: the second send is never
completed. -/
theorem eventChan_single_delivery (query : String) (timerOnTie : Bool)
    (event : List Arrival) (fuel : Nat) :
    (run query timerOnTie fuel (Config.init event)).delivered.length ≤ 1 ∧
      (run query timerOnTie fuel (Config.init event)).attempted.length ≤
        (run query timerOnTie fuel (Config.init event)).delivered.length + 1 ∧
      ((run query timerOnTie fuel (Config.init event)).delivered.length <
          (run query timerOnTie fuel (Config.init event)).attempted.length →
        ∃ v rest, (run query timerOnTie fuel (Config.init event)).producer = .sending v rest) ∧
      ((run query timerOnTie fuel (Config.init event)).attempted.length = 2 →
        step query timerOnTie (run query timerOnTie fuel (Config.init event)) = none) :=
  handoff_facts query timerOnTie _
    (run_invariant query timerOnTie Handoff (step_handoff query timerOnTie) fuel
      (Config.init event)
      ⟨by simp [Config.init], fun _ => rfl, by simp [Config.init]⟩)

end Mesh
